import Mathlib

/-!
Verification of the football-data ETL pipeline (`src/dags/football_data_etl.py`)
and the Streamlit dashboard (`src/streamlit/app.py`).

Pandas data frames are embedded shallowly: a `Table` is a list of column
names together with a list of rows, where a row is an association list from
column name to an optional `Cell` (`none` models a missing value / NaN).
Exceptions raised by the Python code are modelled as explicit result
constructors.
-/

/-- A cell of a data frame: either a string or an integer value.
(The columns the pipeline inspects hold strings — team names, dates,
league tags — or integers — goal counts.) -/
inductive Cell where
  | str (s : String)
  | int (n : Int)
  deriving DecidableEq, Repr

/-- A row: association list from column name to optional cell;
`none` models a null (NaN) entry. -/
abbrev Row := List (String × Option Cell)

/-- A data frame: the column labels, in order, and the rows. -/
structure Table where
  cols : List String
  rows : List Row
  deriving DecidableEq, Repr

/-- Reading one cell of a row; a key absent from the row reads as null. -/
def rowGet (r : Row) (k : String) : Option Cell :=
  (r.lookup k).join

/-- Assigning one cell of a row (`df[k] = v`, per row): any previous
binding of `k` is dropped and the new one recorded. A row is a map —
only `rowGet` reads it, so the position of an entry is immaterial;
column order is tracked separately in `Table.cols`. -/
def rowSet (r : Row) (k : String) (v : Option Cell) : Row :=
  (k, v) :: r.filter (fun p => p.1 != k)

/-- Column assignment appends a new label unless it is already present
(pandas keeps the position of an existing column). -/
def addCol (cs : List String) (c : String) : List String :=
  if cs.contains c then cs else cs ++ [c]

/-- The cells of column `c`, in row order (`df[c]`, assuming `c ∈ df.cols`). -/
def Table.col (df : Table) (c : String) : List (Option Cell) :=
  df.rows.map (fun r => rowGet r c)

/-- Embeds `df[c].notna().all()`: every cell of column `c` is non-null.
(pandas' `.all()` on an empty series is `True`, as is `List.all` on `[]`.) -/
def notnaAll (df : Table) (c : String) : Bool :=
  (df.col c).all Option.isSome

/-! ### `validate_data` (src/dags/football_data_etl.py, lines 56-79) -/

/-- Outcome of `validate_data`: the Python function either raises —
`ValueError` for a missing file, `KeyError` for access to an absent
column label, `ValueError` carrying the failed-check names — or returns
the checks mapping. -/
inductive VResult where
  | fileNotFound
  | keyError (col : String)
  | checksFailed (failed : List String)
  | ok (checks : List (String × Bool))
  deriving DecidableEq, Repr

/-- The `no_null_teams` expression
`df['HomeTeam'].notna().all() and df['AwayTeam'].notna().all()`.
`df[label]` raises `KeyError` when the label is absent, and Python's
`and` short-circuits, so `df['AwayTeam']` is only evaluated when the
`HomeTeam` column exists and is entirely non-null. -/
def noNullTeams (df : Table) : Except String Bool :=
  if df.cols.contains "HomeTeam" then
    if notnaAll df "HomeTeam" then
      if df.cols.contains "AwayTeam" then Except.ok (notnaAll df "AwayTeam")
      else Except.error "AwayTeam"
    else Except.ok false
  else Except.error "HomeTeam"

/-- Embeds `validate_data`. The argument is the content of `RAW_DATA_PATH`
(`none` = file absent, in which case `ValueError` is raised before any
check runs). The five checks are evaluated while the `checks` dict
literal is built; the first four are pure tests on `len(df)` and
`df.columns`, and `no_null_teams` is the only entry whose evaluation can
raise. -/
def validate_data (file : Option Table) : VResult :=
  match file with
  | none => VResult.fileNotFound
  | some df =>
    match noNullTeams df with
    | Except.error c => VResult.keyError c
    | Except.ok nnt =>
      let checks : List (String × Bool) :=
        [("row_count", decide (0 < df.rows.length)),
         ("has_home_team", df.cols.contains "HomeTeam"),
         ("has_away_team", df.cols.contains "AwayTeam"),
         ("has_date", df.cols.contains "Date"),
         ("no_null_teams", nnt)]
      let failed := (checks.filter (fun kv => !kv.2)).map Prod.fst
      if failed.isEmpty then VResult.ok checks else VResult.checksFailed failed

/-! ### `extract_match_data` (src/dags/football_data_etl.py, lines 27-54) -/

/-- The league registry (`LEAGUES`); a Python dict preserves insertion
order, so it is embedded as an ordered association list. -/
def LEAGUES : List (String × String) :=
  [("E0", "Premier League"),
   ("E1", "Championship"),
   ("D1", "Bundesliga"),
   ("SP1", "La Liga"),
   ("I1", "Serie A"),
   ("F1", "Ligue 1")]

/-- Tagging a fetched per-league frame:
`df['league'] = name; df['league_code'] = code; df['extracted_at'] = ts`.
Each assignment sets the cell on every row and appends the column label
when new. -/
def tagLeague (df : Table) (name code ts : String) : Table :=
  { cols := addCol (addCol (addCol df.cols "league") "league_code") "extracted_at",
    rows := df.rows.map (fun r =>
      rowSet (rowSet (rowSet r "league" (some (Cell.str name)))
        "league_code" (some (Cell.str code)))
        "extracted_at" (some (Cell.str ts))) }

/-- Embeds `pd.concat(ts, ignore_index=True)`: column union in order of first
occurrence, rows appended in list order (a row simply lacks the entries
of columns its frame did not have; such cells read as null). -/
def concatTables (ts : List Table) : Table :=
  { cols := ts.foldl (fun acc t => t.cols.foldl addCol acc) [],
    rows := (ts.map Table.rows).flatten }

/-- The `all_matches` accumulator of `extract_match_data`'s loop over a
registry `L`: the tagged frames of the leagues whose fetch succeeded, in
iteration order. -/
def allMatches (fetch : String → Option Table) (ts : String)
    (L : List (String × String)) : List Table :=
  L.filterMap (fun lc => (fetch lc.1).map (fun df => tagLeague df lc.2 lc.1 ts))

/-- Embeds `extract_match_data`. Here `fetch` models `pd.read_csv(url)` per league
code (`none` = the download/parse raised and the league is skipped);
`ts` is the `datetime.now().isoformat()` stamp of this run; `fs` is the
prior content of `RAW_DATA_PATH`. Returns the Python return value
together with the resulting file content: when at least one league
succeeded the combined frame overwrites the file (`to_csv`), otherwise
the function returns `0` and the file is untouched. -/
def extract_match_data (fetch : String → Option Table) (ts : String)
    (fs : Option Table) : Nat × Option Table :=
  let all_matches := allMatches fetch ts LEAGUES
  if all_matches.isEmpty then (0, fs)
  else
    let combined := concatTables all_matches
    (combined.rows.length, some combined)

/-! ### Dashboard (src/streamlit/app.py) -/

/-- The date-derived columns of `load_raw_data` (lines 57-59).
`pd.to_datetime(..., errors='coerce')` is total — an unparseable value
becomes `NaT` rather than raising — and `.dt.to_period(..).astype(str)`
is total as well, so the three column transforms are parameters of the
embedding; none of the verified properties depends on their values. -/
structure DateOps where
  parse : Option Cell → Option Cell
  month : Option Cell → Option Cell
  week : Option Cell → Option Cell

/-- Embeds `df['FTHG'] + df['FTAG']` on one row: integer addition, a null
operand propagating to null (NaN). The verified properties only
exercise integer goal columns. -/
def addCells : Option Cell → Option Cell → Option Cell
  | some (Cell.int a), some (Cell.int b) => some (Cell.int (a + b))
  | _, _ => none

/-- The per-row effect of `load_raw_data`'s column assignments: the
`Date` cell replaced by its coerced parse, then the derived `Month`,
`Week` (both from the reparsed date) and `TotalGoals` cells. -/
def augRow (dops : DateOps) (r : Row) : Row :=
  let d := dops.parse (rowGet r "Date")
  rowSet (rowSet (rowSet (rowSet r "Date" d)
    "Month" (dops.month d))
    "Week" (dops.week d))
    "TotalGoals" (addCells (rowGet r "FTHG") (rowGet r "FTAG"))

/-- The body of `load_raw_data`'s `try` block (lines 56-61). Failures
are explicit: a missing or unparseable file at `data/raw/matches.csv`,
then `KeyError` on each column access in evaluation order — `df['Date']`
(line 57), `df['FTHG']` and `df['FTAG']` (line 60). On success the frame
gains the reparsed `Date` and the derived `Month`, `Week` and
`TotalGoals` columns. -/
def loadRawBody (dops : DateOps) (file : Option Table) : Except String Table :=
  match file with
  | none => Except.error "read_csv"
  | some df =>
    if df.cols.contains "Date" then
      if df.cols.contains "FTHG" then
        if df.cols.contains "FTAG" then
          Except.ok
            { cols := addCol (addCol (addCol df.cols "Month") "Week") "TotalGoals",
              rows := df.rows.map (augRow dops) }
        else Except.error "FTAG"
      else Except.error "FTHG"
    else Except.error "Date"

/-- Embeds `load_raw_data`: the `try/except` wrapper — any failure of the body
is swallowed and an empty frame (`pd.DataFrame()`) returned. -/
def load_raw_data (dops : DateOps) (file : Option Table) : Table :=
  match loadRawBody dops file with
  | Except.ok df => df
  | Except.error _ => { cols := [], rows := [] }

/-- The overview tab's `filtered_df` (line 123):
`df[df['league'].isin(leagues)] if leagues and 'league' in df.columns
else df`. `isin` is false on a null or non-string cell. -/
def filterLeagues (df : Table) (leagues : List String) : Table :=
  if !leagues.isEmpty && df.cols.contains "league" then
    { df with rows := df.rows.filter (fun r =>
        match rowGet r "league" with
        | some (Cell.str l) => leagues.contains l
        | _ => false) }
  else df

/-- The "Total Matches" metric (line 126): `len(filtered_df)`. -/
def totalMatchesMetric (df : Table) (leagues : List String) : Nat :=
  (filterLeagues df leagues).rows.length

/-- The numeric value of a cell, when it has one (a null or
non-numeric cell contributes nothing to a pandas mean). -/
def cellInt : Option Cell → Option Int
  | some (Cell.int n) => some n
  | _ => none

/-- Embeds `series.mean()`: pandas averages the non-null numeric values;
`none` models the NaN produced by an empty mean. -/
def colMean (cells : List (Option Cell)) : Option ℚ :=
  let vals := cells.filterMap cellInt
  if vals.isEmpty then none
  else some ((vals.map (fun n : Int => (n : ℚ))).sum / (vals.length : ℚ))

/-- The "Avg Goals/Match" metric (lines 129-131):
`filtered_df['TotalGoals'].mean()`, displayed only when `TotalGoals` is
a column of the filtered frame. -/
def avgGoalsMetric (df : Table) (leagues : List String) : Option ℚ :=
  let f := filterLeagues df leagues
  if f.cols.contains "TotalGoals" then colMean (f.col "TotalGoals") else none

/-- The string values of a frame's `league` column
(`df['league'].unique()` feeds `sorted`, so the values are strings). -/
def leagueValues (df : Table) : List String :=
  (df.col "league").filterMap (fun c => match c with
    | some (Cell.str s) => some s
    | _ => none)

/-- Embeds `available_leagues`, dbt branch (line 83):
`[l for l in sorted(standings_df['league'].unique()) if l != 'Championship']`. -/
def availableLeaguesDbt (standings : Table) : List String :=
  (((leagueValues standings).eraseDups).mergeSort (fun a b => a ≤ b)).filter
    (fun l => l ≠ "Championship")

/-- Embeds `available_leagues`, raw branch (line 85): the same comprehension
over `df['league'].unique()`, guarded by `if 'league' in df.columns
else []`. -/
def availableLeaguesRaw (df : Table) : List String :=
  if df.cols.contains "league" then
    (((leagueValues df).eraseDups).mergeSort (fun a b => a ≤ b)).filter
      (fun l => l ≠ "Championship")
  else []

/-! ### Basic lemmas about rows and columns -/

theorem lookup_filter_ne (r : Row) (k k' : String) (h : k' ≠ k) :
    (r.filter (fun p => p.1 != k)).lookup k' = r.lookup k' := by
  induction r with
  | nil => rfl
  | cons p r ih =>
    rcases p with ⟨a, b⟩
    by_cases hp : a = k
    · subst hp
      have hba : (k' == a) = false := by simp [h]
      simp [List.filter_cons, List.lookup, hba, ih]
    · have hak : (a != k) = true := by simp [hp]
      by_cases ha : k' = a
      · subst ha
        simp [List.filter_cons, List.lookup, hak]
      · have hba : (k' == a) = false := by simp [ha]
        simp [List.filter_cons, List.lookup, hak, hba, ih]

theorem rowGet_rowSet_self (r : Row) (k : String) (v : Option Cell) :
    rowGet (rowSet r k v) k = v := by
  simp [rowGet, rowSet, List.lookup]

theorem rowGet_rowSet_ne (r : Row) (k k' : String) (v : Option Cell)
    (h : k' ≠ k) : rowGet (rowSet r k v) k' = rowGet r k' := by
  have hba : (k' == k) = false := by simp [h]
  rw [rowGet, rowGet, rowSet]
  rw [List.lookup, hba, lookup_filter_ne r k k' h]

theorem contains_addCol_self (cs : List String) (c : String) :
    (addCol cs c).contains c = true := by
  rw [addCol]
  split
  · assumption
  · simp

theorem contains_addCol_of (cs : List String) (c c' : String)
    (h : cs.contains c = true) : (addCol cs c').contains c = true := by
  rw [addCol]
  split
  · exact h
  · simp_all

/-! ### Claims about `validate_data` -/

/-- C6: when the extractor's output file is absent, `validate_data`
raises the missing-file `ValueError`, before any of the five quality
checks is evaluated. -/
theorem C6_missing_file_fatal : validate_data none = VResult.fileNotFound := rfl

/-- A one-row table that is well-formed except that the away-team
column is absent. -/
def missingAwayTable : Table :=
  { cols := ["Date", "HomeTeam", "FTHG", "FTAG"],
    rows := [[("Date", some (Cell.str "01/08/2025")),
              ("HomeTeam", some (Cell.str "Arsenal")),
              ("FTHG", some (Cell.int 2)),
              ("FTAG", some (Cell.int 1))]] }

/-- C1: on a table missing the away-team column, `validate_data` does
not report the failed predicate names: the `no_null_teams` expression
evaluates `df['AwayTeam']` (its `HomeTeam` operand being all non-null)
and raises `KeyError('AwayTeam')` while the `checks` dict is still being
built, so no `ValueError` carrying a failed-check list is ever reached. -/
theorem C1_missing_away_column_keyerror :
    validate_data (some missingAwayTable) = VResult.keyError "AwayTeam" ∧
    ∀ failed, validate_data (some missingAwayTable) ≠ VResult.checksFailed failed := by
  refine ⟨by decide, fun failed h => ?_⟩
  rw [show validate_data (some missingAwayTable) = VResult.keyError "AwayTeam" by decide] at h
  exact VResult.noConfusion h

/-- C5: a well-formed table — at least one row, team and date columns
present, no nulls in either team column — passes `validate_data`, which
returns the full check mapping with all five predicates true. -/
theorem C5_well_formed_passes (df : Table)
    (hH : df.cols.contains "HomeTeam" = true)
    (hA : df.cols.contains "AwayTeam" = true)
    (hD : df.cols.contains "Date" = true)
    (hrow : 0 < df.rows.length)
    (hhome : notnaAll df "HomeTeam" = true)
    (haway : notnaAll df "AwayTeam" = true) :
    validate_data (some df) = VResult.ok
      [("row_count", true), ("has_home_team", true), ("has_away_team", true),
       ("has_date", true), ("no_null_teams", true)] := by
  have hH' : "HomeTeam" ∈ df.cols := by simpa using hH
  have hA' : "AwayTeam" ∈ df.cols := by simpa using hA
  have hD' : "Date" ∈ df.cols := by simpa using hD
  simp [validate_data, noNullTeams, hH', hA', hD', hrow, hhome, haway]

/-- A well-formed two-row table. -/
def wellFormedTable : Table :=
  { cols := ["Date", "HomeTeam", "AwayTeam"],
    rows := [[("Date", some (Cell.str "01/08/2025")),
              ("HomeTeam", some (Cell.str "Arsenal")),
              ("AwayTeam", some (Cell.str "Leeds"))],
             [("Date", some (Cell.str "02/08/2025")),
              ("HomeTeam", some (Cell.str "Chelsea")),
              ("AwayTeam", some (Cell.str "Everton"))]] }

theorem C5_witness :
    0 < wellFormedTable.rows.length ∧
    validate_data (some wellFormedTable) = VResult.ok
      [("row_count", true), ("has_home_team", true), ("has_away_team", true),
       ("has_date", true), ("no_null_teams", true)] :=
  ⟨by decide, C5_well_formed_passes wellFormedTable (by decide) (by decide)
    (by decide) (by decide) (by decide) (by decide)⟩

/-- C4: a table with the three required columns, at least one row, and
exactly one row with a null home team (every away-team cell non-null)
fails validation reporting exactly `['no_null_teams']`, the other four
checks all passing. -/
theorem C4_single_null_home_team (df : Table)
    (hH : df.cols.contains "HomeTeam" = true)
    (hA : df.cols.contains "AwayTeam" = true)
    (hD : df.cols.contains "Date" = true)
    (hrow : 0 < df.rows.length)
    (hone : (df.col "HomeTeam").countP Option.isNone = 1)
    (_haway : notnaAll df "AwayTeam" = true) :
    validate_data (some df) = VResult.checksFailed ["no_null_teams"] := by
  have hhome : notnaAll df "HomeTeam" = false := by
    rcases List.countP_pos_iff.mp
        (show 0 < (df.col "HomeTeam").countP Option.isNone by omega)
      with ⟨c, hc, hcn⟩
    have hnone : c = none := by cases c <;> simp_all
    rw [notnaAll, Bool.eq_false_iff]
    intro hall
    have := List.all_eq_true.mp hall c hc
    rw [hnone] at this
    simp at this
  have hH' : "HomeTeam" ∈ df.cols := by simpa using hH
  have hA' : "AwayTeam" ∈ df.cols := by simpa using hA
  have hD' : "Date" ∈ df.cols := by simpa using hD
  simp [validate_data, noNullTeams, hH', hA', hD', hrow, hhome]

/-- A table whose first row has a null home team; otherwise well-formed. -/
def oneNullHomeTable : Table :=
  { cols := ["Date", "HomeTeam", "AwayTeam"],
    rows := [[("Date", some (Cell.str "01/08/2025")),
              ("HomeTeam", none),
              ("AwayTeam", some (Cell.str "Leeds"))],
             [("Date", some (Cell.str "02/08/2025")),
              ("HomeTeam", some (Cell.str "Chelsea")),
              ("AwayTeam", some (Cell.str "Everton"))]] }

theorem C4_witness :
    (oneNullHomeTable.col "HomeTeam").countP Option.isNone = 1 ∧
    validate_data (some oneNullHomeTable) = VResult.checksFailed ["no_null_teams"] :=
  ⟨by decide, C4_single_null_home_team oneNullHomeTable (by decide) (by decide)
    (by decide) (by decide) (by decide) (by decide)⟩

/-! ### Lemmas about the extractor -/

theorem tagLeague_rows_length (df : Table) (n c ts : String) :
    (tagLeague df n c ts).rows.length = df.rows.length := by
  simp [tagLeague]

theorem tagLeague_row_tags (df : Table) (n c ts : String) (r : Row)
    (hr : r ∈ (tagLeague df n c ts).rows) :
    rowGet r "league" = some (Cell.str n) ∧
    rowGet r "league_code" = some (Cell.str c) := by
  simp only [tagLeague, List.mem_map] at hr
  rcases hr with ⟨r0, _, rfl⟩
  refine ⟨?_, ?_⟩
  · rw [rowGet_rowSet_ne _ _ _ _ (by decide), rowGet_rowSet_ne _ _ _ _ (by decide),
      rowGet_rowSet_self]
  · rw [rowGet_rowSet_ne _ _ _ _ (by decide), rowGet_rowSet_self]

theorem allMatches_nil_iff (fetch : String → Option Table) (ts : String)
    (L : List (String × String)) :
    allMatches fetch ts L = [] ↔ ∀ p ∈ L, fetch p.1 = none := by
  simp [allMatches, List.filterMap_eq_nil_iff]

/-- The sum of the successful leagues' fetched row counts — the value
the spec says the extractor returns. -/
def successRows (fetch : String → Option Table)
    (L : List (String × String)) : Nat :=
  (L.map (fun lc => ((fetch lc.1).map (fun df => df.rows.length)).getD 0)).sum

theorem allMatches_rows_sum (fetch : String → Option Table) (ts : String)
    (L : List (String × String)) :
    ((allMatches fetch ts L).map (fun t => t.rows.length)).sum
      = successRows fetch L := by
  induction L with
  | nil => rfl
  | cons lc L ih =>
    rcases h : fetch lc.1 with _ | df
    · simp [allMatches, successRows, List.filterMap_cons, h] at ih ⊢
      exact ih
    · simp [allMatches, successRows, List.filterMap_cons, h,
        tagLeague_rows_length] at ih ⊢
      exact ih

theorem concat_allMatches_length (fetch : String → Option Table) (ts : String)
    (L : List (String × String)) :
    (concatTables (allMatches fetch ts L)).rows.length = successRows fetch L := by
  rw [← allMatches_rows_sum fetch ts L, concatTables]
  simp only [List.length_flatten, List.map_map]
  rfl

/-! ### Claims about `extract_match_data` -/

/-- C3: when every one of the six league fetches fails,
`extract_match_data` returns `0` without raising, and no file is
written — the prior content of the output path is untouched. -/
theorem C3_total_failure_returns_zero (fetch : String → Option Table)
    (ts : String) (fs : Option Table)
    (hfail : ∀ p ∈ LEAGUES, fetch p.1 = none) :
    extract_match_data fetch ts fs = (0, fs) := by
  have h : allMatches fetch ts LEAGUES = [] := (allMatches_nil_iff _ _ _).mpr hfail
  simp [extract_match_data, h]

/-- A pre-existing combined file, used to witness that total failure
leaves it unchanged. -/
def priorFile : Table :=
  { cols := ["HomeTeam"], rows := [[("HomeTeam", some (Cell.str "Lyon"))]] }

theorem C3_witness :
    extract_match_data (fun _ => none) "2026-02-01T06:00:00" (some priorFile)
      = (0, some priorFile) :=
  C3_total_failure_returns_zero _ _ _ (fun _ _ => rfl)

/-- C2: whenever at least one league fetch succeeds,
`extract_match_data` writes a combined file holding exactly the tagged
rows of the successful leagues, in registry order; every written row
carries the registry's display name and code of a league whose fetch
succeeded; and the returned count is the sum of the successful leagues'
row counts. -/
theorem C2_successful_leagues_combined (fetch : String → Option Table)
    (ts : String) (fs : Option Table)
    (hsucc : ∃ p ∈ LEAGUES, (fetch p.1).isSome = true) :
    ∃ combined,
      extract_match_data fetch ts fs = (successRows fetch LEAGUES, some combined) ∧
      combined.rows = (LEAGUES.filterMap (fun lc =>
        (fetch lc.1).map (fun df => (tagLeague df lc.2 lc.1 ts).rows))).flatten ∧
      ∀ r ∈ combined.rows, ∃ lc ∈ LEAGUES, ∃ df, fetch lc.1 = some df ∧
        rowGet r "league" = some (Cell.str lc.2) ∧
        rowGet r "league_code" = some (Cell.str lc.1) := by
  have hne : ¬ allMatches fetch ts LEAGUES = [] := by
    intro h
    rcases hsucc with ⟨p, hp, hs⟩
    rw [(allMatches_nil_iff _ _ _).mp h p hp] at hs
    exact Bool.noConfusion hs
  refine ⟨concatTables (allMatches fetch ts LEAGUES), ?_, ?_, ?_⟩
  · rw [extract_match_data]
    simp only [List.isEmpty_iff, hne, if_false]
    rw [concat_allMatches_length]
  · rw [concatTables, allMatches, List.map_filterMap]
    simp only [Option.map_map]
    rfl
  · intro r hr
    rw [concatTables] at hr
    simp only [List.mem_flatten, List.mem_map] at hr
    rcases hr with ⟨l, ⟨t, ht, rfl⟩, hrl⟩
    rcases List.mem_filterMap.mp ht with ⟨lc, hlc, hmap⟩
    rcases Option.map_eq_some'.mp hmap with ⟨df, hdf, rfl⟩
    rcases tagLeague_row_tags df lc.2 lc.1 ts r hrl with ⟨h1, h2⟩
    exact ⟨lc, hlc, df, hdf, h1, h2⟩

/-- Ten fetched Premier League rows, for the concrete C2 scenario. -/
def tenRowTable : Table :=
  { cols := ["HomeTeam"], rows := List.replicate 10 [("HomeTeam", some (Cell.str "Arsenal"))] }

/-- Eight fetched Bundesliga rows, for the concrete C2 scenario. -/
def eightRowTable : Table :=
  { cols := ["HomeTeam"], rows := List.replicate 8 [("HomeTeam", some (Cell.str "Bayern"))] }

/-- A fetch oracle where `E0` yields 10 rows, `D1` yields 8 rows and
every other league download fails. -/
def fetchTwoLeagues : String → Option Table :=
  fun c => if c = "E0" then some tenRowTable
    else if c = "D1" then some eightRowTable else none

theorem C2_witness_18 :
    (∃ p ∈ LEAGUES, (fetchTwoLeagues p.1).isSome = true) ∧
    successRows fetchTwoLeagues LEAGUES = 18 ∧
    (extract_match_data fetchTwoLeagues "2026-02-01T06:00:00" none).1 = 18 := by
  have hs : ∃ p ∈ LEAGUES, (fetchTwoLeagues p.1).isSome = true :=
    ⟨("E0", "Premier League"), by decide, rfl⟩
  refine ⟨hs, by decide, ?_⟩
  rcases C2_successful_leagues_combined fetchTwoLeagues "2026-02-01T06:00:00" none hs
    with ⟨c, hc, _⟩
  rw [hc]
  exact (by decide : successRows fetchTwoLeagues LEAGUES = 18)

/-- Row count of the persisted file (`0` when absent). -/
def fileRowCount : Option Table → Nat
  | none => 0
  | some t => t.rows.length

/-- C7: running the extractor twice over identical upstream data (the
same fetch results; the extraction timestamps of the two runs may
differ) yields the same returned count, and the persisted file after
the second run has the same row count as after the first — the write
replaces the file wholesale, it never appends. -/
theorem C7_rerun_overwrites (fetch : String → Option Table)
    (ts1 ts2 : String) (fs : Option Table) :
    (extract_match_data fetch ts2 (extract_match_data fetch ts1 fs).2).1
      = (extract_match_data fetch ts1 fs).1 ∧
    fileRowCount (extract_match_data fetch ts2 (extract_match_data fetch ts1 fs).2).2
      = fileRowCount (extract_match_data fetch ts1 fs).2 := by
  by_cases h : ∀ p ∈ LEAGUES, fetch p.1 = none
  · have h1 : allMatches fetch ts1 LEAGUES = [] := (allMatches_nil_iff _ _ _).mpr h
    have h2 : allMatches fetch ts2 LEAGUES = [] := (allMatches_nil_iff _ _ _).mpr h
    simp [extract_match_data, h1, h2]
  · have h1 : ¬ allMatches fetch ts1 LEAGUES = [] :=
      fun e => h ((allMatches_nil_iff _ _ _).mp e)
    have h2 : ¬ allMatches fetch ts2 LEAGUES = [] :=
      fun e => h ((allMatches_nil_iff _ _ _).mp e)
    simp only [extract_match_data, List.isEmpty_iff, h1, h2, if_false, fileRowCount,
      concat_allMatches_length]
    exact ⟨trivial, trivial⟩

/-! ### Claims about the dashboard -/

/-- C9: whichever source the dashboard loads, the league filter options
never contain `Championship` — each branch of `available_leagues`
filters it out — although the extractor's registry maps code `E1` to
exactly that display name, so Championship rows are never selectable
through the league filter. -/
theorem C9_championship_never_selectable :
    (∀ standings : Table, "Championship" ∉ availableLeaguesDbt standings) ∧
    (∀ df : Table, "Championship" ∉ availableLeaguesRaw df) ∧
    LEAGUES.lookup "E1" = some "Championship" := by
  refine ⟨fun s hm => ?_, fun df hm => ?_, by decide⟩
  · have := (List.mem_filter.mp hm).2
    simp at this
  · rw [availableLeaguesRaw] at hm
    split at hm
    · have := (List.mem_filter.mp hm).2
      simp at this
    · simp at hm

/-- C10: the dashboard's raw-data loader is total: for every state of
the data file it either returns the parsed table carrying the `Date`,
`Month`, `Week` and `TotalGoals` columns (its `try` body having
succeeded), or returns the empty frame after any failure of the body —
missing file, parse error, or a missing `Date`/`FTHG`/`FTAG` column; no
exception reaches the caller. -/
theorem C10_load_raw_data_total (dops : DateOps) (file : Option Table) :
    (∃ e, loadRawBody dops file = Except.error e ∧
      load_raw_data dops file = { cols := [], rows := [] }) ∨
    (loadRawBody dops file = Except.ok (load_raw_data dops file) ∧
      (load_raw_data dops file).cols.contains "Date" = true ∧
      (load_raw_data dops file).cols.contains "Month" = true ∧
      (load_raw_data dops file).cols.contains "Week" = true ∧
      (load_raw_data dops file).cols.contains "TotalGoals" = true) := by
  cases file with
  | none => exact Or.inl ⟨"read_csv", rfl, rfl⟩
  | some df =>
    by_cases hD : df.cols.contains "Date" = true
    · by_cases hG : df.cols.contains "FTHG" = true
      · by_cases hA : df.cols.contains "FTAG" = true
        · have hbody : loadRawBody dops (some df) = Except.ok
              { cols := addCol (addCol (addCol df.cols "Month") "Week") "TotalGoals",
                rows := df.rows.map (augRow dops) } := by
            simp only [loadRawBody]
            rw [if_pos hD, if_pos hG, if_pos hA]
          have hload : load_raw_data dops (some df)
              = { cols := addCol (addCol (addCol df.cols "Month") "Week") "TotalGoals",
                  rows := df.rows.map (augRow dops) } := by
            rw [load_raw_data, hbody]
          refine Or.inr ⟨?_, ?_, ?_, ?_, ?_⟩
          · rw [hbody, hload]
          · rw [hload]
            exact contains_addCol_of _ _ _
              (contains_addCol_of _ _ _ (contains_addCol_of _ _ _ hD))
          · rw [hload]
            exact contains_addCol_of _ _ _
              (contains_addCol_of _ _ _ (contains_addCol_self _ _))
          · rw [hload]
            exact contains_addCol_of _ _ _ (contains_addCol_self _ _)
          · rw [hload]
            exact contains_addCol_self _ _
        · have hD' : "Date" ∈ df.cols := by simpa using hD
          have hG' : "FTHG" ∈ df.cols := by simpa using hG
          have hA' : "FTAG" ∉ df.cols := by simpa using hA
          refine Or.inl ⟨"FTAG", ?_, ?_⟩ <;>
            simp [loadRawBody, load_raw_data, hD', hG', hA']
      · have hD' : "Date" ∈ df.cols := by simpa using hD
        have hG' : "FTHG" ∉ df.cols := by simpa using hG
        refine Or.inl ⟨"FTHG", ?_, ?_⟩ <;>
          simp [loadRawBody, load_raw_data, hD', hG']
    · have hD' : "Date" ∉ df.cols := by simpa using hD
      refine Or.inl ⟨"Date", ?_, ?_⟩ <;>
        simp [loadRawBody, load_raw_data, hD']

theorem augRow_league (dops : DateOps) (r : Row) :
    rowGet (augRow dops r) "league" = rowGet r "league" := by
  simp only [augRow]
  rw [rowGet_rowSet_ne _ _ _ _ (by decide), rowGet_rowSet_ne _ _ _ _ (by decide),
    rowGet_rowSet_ne _ _ _ _ (by decide), rowGet_rowSet_ne _ _ _ _ (by decide)]

theorem augRow_totalGoals (dops : DateOps) (r : Row) :
    rowGet (augRow dops r) "TotalGoals"
      = addCells (rowGet r "FTHG") (rowGet r "FTAG") := by
  simp only [augRow]
  rw [rowGet_rowSet_self]

theorem filterMap_cellInt_const {α : Type} (l : List α) (n : Int) :
    (l.map (fun _ => some (Cell.int n))).filterMap cellInt = l.map (fun _ => n) := by
  induction l with
  | nil => rfl
  | cons a l ih => simp [ih, cellInt]

theorem sum_int_cast_const {α : Type} (l : List α) (n : Int) :
    ((l.map (fun _ => n)).map (fun m : Int => (m : ℚ))).sum = l.length * (n : ℚ) := by
  induction l with
  | nil => simp
  | cons a l ih =>
    rw [List.map_cons, List.map_cons, List.sum_cons, ih, List.length_cons]
    push_cast
    ring

/-- Unfolds `colMean` past its local binding. -/
theorem colMean_eq (cells : List (Option Cell)) :
    colMean cells = if (cells.filterMap cellInt).isEmpty then none
      else some (((cells.filterMap cellInt).map (fun n : Int => (n : ℚ))).sum
        / ((cells.filterMap cellInt).length : ℚ)) := rfl

/-- Unfolds `avgGoalsMetric` past its local binding. -/
theorem avgGoalsMetric_eq (df : Table) (leagues : List String) :
    avgGoalsMetric df leagues
      = if (filterLeagues df leagues).cols.contains "TotalGoals"
        then colMean ((filterLeagues df leagues).col "TotalGoals") else none := rfl

/-- C8: over a combined table whose every row records `FTHG = 2` and
`FTAG = 1`, filtering the overview tab by one league present in the data
shows a "Total Matches" metric equal to the number of rows tagged with
that league and an "Avg Goals/Match" metric of exactly 3. -/
theorem C8_single_league_metrics (dops : DateOps) (raw : Table) (L : String)
    (hD : raw.cols.contains "Date" = true)
    (hG : raw.cols.contains "FTHG" = true)
    (hA : raw.cols.contains "FTAG" = true)
    (hL : raw.cols.contains "league" = true)
    (hgoals : ∀ r ∈ raw.rows, rowGet r "FTHG" = some (Cell.int 2) ∧
      rowGet r "FTAG" = some (Cell.int 1))
    (hsel : ∃ r ∈ raw.rows, rowGet r "league" = some (Cell.str L)) :
    totalMatchesMetric (load_raw_data dops (some raw)) [L]
      = raw.rows.countP (fun r => decide (rowGet r "league" = some (Cell.str L))) ∧
    avgGoalsMetric (load_raw_data dops (some raw)) [L] = some 3 := by
  have hload : load_raw_data dops (some raw)
      = { cols := addCol (addCol (addCol raw.cols "Month") "Week") "TotalGoals",
          rows := raw.rows.map (augRow dops) } := by
    rw [load_raw_data]
    simp only [loadRawBody]
    rw [if_pos hD, if_pos hG, if_pos hA]
  have hpred : ∀ r : Row, (match rowGet (augRow dops r) "league" with
      | some (Cell.str l) => [L].contains l
      | _ => false) = decide (rowGet r "league" = some (Cell.str L)) := by
    intro r
    rw [augRow_league]
    rcases hc : rowGet r "league" with _ | c
    · simp
    · cases c with
      | str s => by_cases h : s = L <;> simp [h]
      | int n => simp
  have hlc : (addCol (addCol (addCol raw.cols "Month") "Week") "TotalGoals").contains
      "league" = true :=
    contains_addCol_of _ _ _ (contains_addCol_of _ _ _ (contains_addCol_of _ _ _ hL))
  have hfilter : filterLeagues (load_raw_data dops (some raw)) [L]
      = { cols := addCol (addCol (addCol raw.cols "Month") "Week") "TotalGoals",
          rows := (raw.rows.filter
            (fun r => decide (rowGet r "league" = some (Cell.str L)))).map (augRow dops) } := by
    rw [hload, filterLeagues]
    rw [if_pos (by rw [hlc]; rfl)]
    congr 1
    rw [List.filter_map]
    congr 1
    apply List.filter_congr
    intro x _
    exact hpred x
  have hflt : raw.rows.filter
      (fun r => decide (rowGet r "league" = some (Cell.str L))) ≠ [] := by
    rcases hsel with ⟨r0, hr0, hleague⟩
    intro hempty
    have : r0 ∈ raw.rows.filter
        (fun r => decide (rowGet r "league" = some (Cell.str L))) :=
      List.mem_filter.mpr ⟨hr0, by simp [hleague]⟩
    rw [hempty] at this
    exact List.not_mem_nil r0 this
  constructor
  · rw [totalMatchesMetric, hfilter]
    simp only [List.length_map]
    exact (List.countP_eq_length_filter _ _).symm
  · have hTG : (addCol (addCol (addCol raw.cols "Month") "Week") "TotalGoals").contains
        "TotalGoals" = true := contains_addCol_self _ _
    have hcells : (filterLeagues (load_raw_data dops (some raw)) [L]).col "TotalGoals"
        = (raw.rows.filter
            (fun r => decide (rowGet r "league" = some (Cell.str L)))).map
          (fun _ => some (Cell.int 3)) := by
      rw [hfilter, Table.col]
      simp only [List.map_map]
      apply List.map_congr_left
      intro r hr
      rcases hgoals r (List.mem_of_mem_filter hr) with ⟨h2, h1⟩
      simp only [Function.comp]
      rw [augRow_totalGoals, h2, h1]
      rfl
    rw [avgGoalsMetric_eq, if_pos (by rw [hfilter]; exact hTG), hcells, colMean_eq,
      filterMap_cellInt_const]
    have hlen : (raw.rows.filter
        (fun r => decide (rowGet r "league" = some (Cell.str L)))).length ≠ 0 := by
      simpa [List.length_eq_zero] using hflt
    rw [if_neg (by simp [List.isEmpty_iff, List.map_eq_nil_iff, hflt])]
    rw [sum_int_cast_const, List.length_map]
    have hn : ((raw.rows.filter
        (fun r => decide (rowGet r "league" = some (Cell.str L)))).length : ℚ) ≠ 0 := by
      exact_mod_cast hlen
    rw [mul_comm, mul_div_assoc, div_self hn, mul_one]
    norm_num

/-- Identity date operations, a concrete `DateOps` instance for the
witness scenario. -/
def idDateOps : DateOps :=
  { parse := fun c => c, month := fun c => c, week := fun c => c }

/-- A combined table with two Premier League rows and one Bundesliga
row, every row recording a 2-1 home win. -/
def rawSample : Table :=
  { cols := ["Date", "HomeTeam", "AwayTeam", "FTHG", "FTAG", "league"],
    rows := [[("Date", some (Cell.str "01/08/2025")),
              ("HomeTeam", some (Cell.str "Arsenal")),
              ("AwayTeam", some (Cell.str "Leeds")),
              ("FTHG", some (Cell.int 2)),
              ("FTAG", some (Cell.int 1)),
              ("league", some (Cell.str "Premier League"))],
             [("Date", some (Cell.str "02/08/2025")),
              ("HomeTeam", some (Cell.str "Bayern")),
              ("AwayTeam", some (Cell.str "Mainz")),
              ("FTHG", some (Cell.int 2)),
              ("FTAG", some (Cell.int 1)),
              ("league", some (Cell.str "Bundesliga"))],
             [("Date", some (Cell.str "03/08/2025")),
              ("HomeTeam", some (Cell.str "Chelsea")),
              ("AwayTeam", some (Cell.str "Everton")),
              ("FTHG", some (Cell.int 2)),
              ("FTAG", some (Cell.int 1)),
              ("league", some (Cell.str "Premier League"))]] }

theorem C8_witness :
    (∀ r ∈ rawSample.rows, rowGet r "FTHG" = some (Cell.int 2) ∧
      rowGet r "FTAG" = some (Cell.int 1)) ∧
    (∃ r ∈ rawSample.rows, rowGet r "league" = some (Cell.str "Premier League")) ∧
    (totalMatchesMetric (load_raw_data idDateOps (some rawSample)) ["Premier League"]
        = rawSample.rows.countP
            (fun r => decide (rowGet r "league" = some (Cell.str "Premier League"))) ∧
      avgGoalsMetric (load_raw_data idDateOps (some rawSample)) ["Premier League"]
        = some 3) :=
  ⟨by decide, by decide,
   C8_single_league_metrics idDateOps rawSample "Premier League" (by decide) (by decide)
     (by decide) (by decide) (by decide) (by decide)⟩
